import Mathlib

/-!
Shallow embedding of `src/main.py` (ATS resume analyzer, Flask backend).

The program has three relevant parts:
* `query_gemini_with_retry` — a retry wrapper with exponential backoff around
  a call to an external text-generation service;
* `extract_text_from_pdf` — best-effort PDF text extraction that swallows
  exceptions;
* the `POST /analyze` handler `analyze` — input validation, file save, PDF
  extraction, and three sequential wrapper invocations.

The external generation call is modelled as a function
`svc : String → Option String → Nat → Except String String` giving, for each
(prompt, system-instruction, attempt-index) triple, either the generated text
(`Except.ok`) or the raised exception's message (`Except.error`).  Python
exceptions are modelled as `Except.error`; a Lean function being total models
"never propagates an exception to the caller".  Observable side effects
(sleeps, underlying call attempts, file saves, extractions, wrapper
invocations) are recorded in explicit trace structures.
-/

namespace ATSResume

/-- Observable outcome of one run of the retry wrapper: the returned string,
the list of sleep durations (seconds, in order), the list of attempt indices
at which the underlying call was invoked, and whether the post-loop fallback
branch (`return "Unknown AI Error"`) was taken. -/
structure RetryTrace where
  result : String
  sleeps : List Nat
  calls : List Nat
  fallback : Bool
deriving Repr, DecidableEq

/-- Source: `retries = 5` in `query_gemini_with_retry`. -/
def retries : Nat := 5

/-- Body of the `for i in range(retries)` loop of `query_gemini_with_retry`,
as structural recursion on the remaining iteration count (`fuel`), with `i`
the current loop index.  On `gen i` succeeding the text is returned; on
failure, if `i == retries - 1` the terminal error string is returned,
otherwise the wrapper sleeps `2^i` seconds and retries.  Exhausting the loop
without returning yields the `"Unknown AI Error"` fallback. -/
def query_loop (gen : Nat → Except String String) : Nat → Nat → RetryTrace
  | _, 0 => ⟨"Unknown AI Error", [], [], true⟩
  | i, fuel + 1 =>
    match gen i with
    | Except.ok t => ⟨t, [], [i], false⟩
    | Except.error e =>
      if i = retries - 1 then
        ⟨"AI Error after 5 retries: " ++ e, [], [i], false⟩
      else
        let rest := query_loop gen (i + 1) fuel
        ⟨rest.result, 2 ^ i :: rest.sleeps, i :: rest.calls, rest.fallback⟩

/-- Source: `query_gemini_with_retry(prompt, system_instruction=None)`.
The underlying `generate_content` behaviour is the parameter `svc`. -/
def query_gemini_with_retry (svc : String → Option String → Nat → Except String String)
    (prompt : String) (system_instruction : Option String) : RetryTrace :=
  query_loop (fun i => svc prompt system_instruction i) 0 retries

/-- An underlying call that raises `"boom"` on every attempt. -/
def constFail : String → Option String → Nat → Except String String :=
  fun _ _ _ => Except.error "boom"

/-- An underlying call that raises twice and then succeeds with `"gen"`. -/
def failTwice : String → Option String → Nat → Except String String :=
  fun _ _ i => if i < 2 then Except.error "t" else Except.ok "gen"

theorem query_loop_calls_bound (gen : Nat → Except String String) (fuel : Nat) :
    ∀ i : Nat, (query_loop gen i fuel).calls.length ≤ fuel ∧
      (query_loop gen i fuel).calls.all (fun j => decide (j < i + fuel)) = true := by
  induction fuel with
  | zero => intro i; simp [query_loop]
  | succ n ih =>
    intro i
    simp only [query_loop]
    cases gen i with
    | ok t => simp
    | error e =>
      by_cases hi : i = retries - 1
      · simp [hi]
      · have h := ih (i + 1)
        simp only [hi, if_false]
        constructor
        · simpa using Nat.succ_le_succ h.1
        · simp only [List.all_cons, Bool.and_eq_true, decide_eq_true_eq]
          refine ⟨by omega, ?_⟩
          have h2 := h.2
          simp only [List.all_eq_true, decide_eq_true_eq] at h2 ⊢
          intro j hj
          have := h2 j hj
          omega

theorem query_loop_no_fallback (gen : Nat → Except String String) (fuel : Nat) :
    ∀ i : Nat, i ≤ retries - 1 → retries - 1 < i + fuel →
      (query_loop gen i fuel).fallback = false := by
  induction fuel with
  | zero => intro i h1 h2; omega
  | succ n ih =>
    intro i h1 h2
    simp only [query_loop]
    cases gen i with
    | ok t => rfl
    | error e =>
      by_cases hi : i = retries - 1
      · simp [hi]
      · simp only [hi, if_false]
        exact ih (i + 1) (by simp [retries] at hi h1 ⊢; omega) (by omega)

/-- C1 (counterexample): with an underlying call that fails on every attempt,
the wrapper's sleep sequence is `[1, 2, 4, 8]`, not `[1, 2, 4, 8, 16]` as the
claim states — the last attempt (index 4) returns the terminal error string
without sleeping. -/
theorem retry_all_fail_sleeps_counterexample :
    (query_gemini_with_retry constFail "p" Option.none).sleeps = [1, 2, 4, 8] ∧
      [1, 2, 4, 8] ≠ [1, 2, 4, 8, 16] := by
  constructor
  · decide
  · decide

/-- C1 (amended): if the underlying generation call fails on all 5 attempts
(indices 0–4), the wrapper sleeps exactly 1, 2, 4, 8 seconds in that order
between attempts (no sleep after the final attempt), and returns the string
`"AI Error after 5 retries: "` followed by the error message of the last
failed attempt. -/
theorem retry_all_fail (svc : String → Option String → Nat → Except String String)
    (p : String) (s : Option String) (errs : Nat → String)
    (hf : ∀ i, i < 5 → svc p s i = Except.error (errs i)) :
    (query_gemini_with_retry svc p s).sleeps = [1, 2, 4, 8] ∧
      (query_gemini_with_retry svc p s).result = "AI Error after 5 retries: " ++ errs 4 := by
  have h0 := hf 0 (by norm_num)
  have h1 := hf 1 (by norm_num)
  have h2 := hf 2 (by norm_num)
  have h3 := hf 3 (by norm_num)
  have h4 := hf 4 (by norm_num)
  simp [query_gemini_with_retry, query_loop, retries, h0, h1, h2, h3, h4]

/-- C1 (witness): the amended theorem applied to the always-failing call. -/
theorem retry_all_fail_witness :
    (query_gemini_with_retry constFail "p" Option.none).sleeps = [1, 2, 4, 8] ∧
      (query_gemini_with_retry constFail "p" Option.none).result =
        "AI Error after 5 retries: " ++ "boom" :=
  retry_all_fail constFail "p" Option.none (fun _ => "boom") (fun _ _ => rfl)

/-- C2: if the underlying call raises on attempts `0..k-1` and succeeds on
attempt `k` (with `k ≤ 4`), the wrapper performs exactly `k` sleeps of
durations `2^0, …, 2^(k-1)` in that order, returns the generated text
verbatim, and invokes the underlying call exactly on attempts `0..k`
(no further calls after attempt `k`). -/
theorem retry_success_at_k (svc : String → Option String → Nat → Except String String)
    (p : String) (s : Option String) (k : Nat) (t : String) (errs : Nat → String)
    (hk : k ≤ 4)
    (hf : ∀ i, i < k → svc p s i = Except.error (errs i))
    (hs : svc p s k = Except.ok t) :
    (query_gemini_with_retry svc p s).sleeps = (List.range k).map (fun i => 2 ^ i) ∧
      (query_gemini_with_retry svc p s).result = t ∧
      (query_gemini_with_retry svc p s).calls = List.range (k + 1) := by
  interval_cases k
  · simp [query_gemini_with_retry, query_loop, retries, hs]
    decide
  · have h0 := hf 0 (by norm_num)
    simp [query_gemini_with_retry, query_loop, retries, h0, hs]
    decide
  · have h0 := hf 0 (by norm_num)
    have h1 := hf 1 (by norm_num)
    simp [query_gemini_with_retry, query_loop, retries, h0, h1, hs]
    decide
  · have h0 := hf 0 (by norm_num)
    have h1 := hf 1 (by norm_num)
    have h2 := hf 2 (by norm_num)
    simp [query_gemini_with_retry, query_loop, retries, h0, h1, h2, hs]
    decide
  · have h0 := hf 0 (by norm_num)
    have h1 := hf 1 (by norm_num)
    have h2 := hf 2 (by norm_num)
    have h3 := hf 3 (by norm_num)
    simp [query_gemini_with_retry, query_loop, retries, h0, h1, h2, h3, hs]
    decide

/-- C2 (witness): the theorem applied to a call that fails twice and then
succeeds on attempt 2. -/
theorem retry_success_at_k_witness :
    (query_gemini_with_retry failTwice "p" Option.none).sleeps = [1, 2] ∧
      (query_gemini_with_retry failTwice "p" Option.none).result = "gen" ∧
      (query_gemini_with_retry failTwice "p" Option.none).calls = [0, 1, 2] := by
  have h := retry_success_at_k failTwice "p" Option.none 2 "gen" (fun _ => "t")
    (by norm_num) (fun i hi => by interval_cases i <;> rfl) rfl
  simpa using h

/-- C3: whatever the behaviour of the underlying generation call, the wrapper
invokes it at most 5 times per run, and only at attempt indices `< 5` (no 6th
attempt is ever made). -/
theorem retry_at_most_five_calls
    (svc : String → Option String → Nat → Except String String)
    (p : String) (s : Option String) :
    (query_gemini_with_retry svc p s).calls.length ≤ 5 ∧
      (query_gemini_with_retry svc p s).calls.all (fun j => decide (j < 5)) = true := by
  have h := query_loop_calls_bound (fun i => svc p s i) retries 0
  simpa [query_gemini_with_retry, retries] using h

/-- C4: whatever the behaviour of the underlying generation call, the wrapper
is a total function returning a string (every modelled exception is caught,
never propagated), and the post-loop fallback branch returning
`"Unknown AI Error"` is never taken: the loop always returns explicitly. -/
theorem retry_fallback_unreachable
    (svc : String → Option String → Nat → Except String String)
    (p : String) (s : Option String) :
    (query_gemini_with_retry svc p s).fallback = false :=
  query_loop_no_fallback (fun i => svc p s i) retries 0 (by norm_num [retries])
    (by norm_num [retries])

/-- Model of a stored PDF as seen through `PyPDF2`: either opening or parsing
the whole file raises (`invalid`), or it parses into a list of pages, each of
which on `extract_text()` either raises (`Except.error`) or returns an
optional text (`Option.none` models Python `None`, turned into `""` by
`or ""`). -/
inductive PdfFile where
  | invalid (err : String)
  | pages (ps : List (Except String (Option String)))

/-- Body of the `for page in reader.pages` loop of `extract_text_from_pdf`,
with `acc` the accumulated `text`.  A raising page aborts the loop (the
exception is caught by the surrounding `try`) and the text accumulated so far
is returned. -/
def extractPages : List (Except String (Option String)) → String → String
  | [], acc => acc
  | p :: rest, acc =>
    match p with
    | Except.ok t => extractPages rest (acc ++ t.getD "")
    | Except.error _ => acc

/-- Source: `extract_text_from_pdf(pdf_path)`.  `text` starts empty; any
exception is caught and the accumulated text returned.  Totality of this
function models "never raises to the caller". -/
def extract_text_from_pdf : PdfFile → String
  | PdfFile.invalid _ => ""
  | PdfFile.pages ps => extractPages ps ""

/-- Modelled from the spec: the extracted text of the pages strictly before
the first raising page (all pages when none raises), each page extracting
`None` contributing the empty string. -/
def extractedPrefix : List (Except String (Option String)) → String
  | [] => ""
  | Except.ok t :: rest => t.getD "" ++ extractedPrefix rest
  | Except.error _ :: _ => ""

/-- A PDF whose middle page raises during text extraction. -/
def pdfBadMiddlePage : PdfFile :=
  PdfFile.pages [Except.ok (Option.some "abc"), Except.error "bad page",
    Except.ok (Option.some "xyz")]

theorem extractPages_eq (ps : List (Except String (Option String))) :
    ∀ acc : String, extractPages ps acc = acc ++ extractedPrefix ps := by
  induction ps with
  | nil => intro acc; simp [extractPages, extractedPrefix]
  | cons p rest ih =>
    intro acc
    cases p with
    | ok t => simp [extractPages, extractedPrefix, ih, String.append_assoc]
    | error e => simp [extractPages, extractedPrefix]

/-- C8 (counterexample): on a PDF whose first page extracts `"abc"`, whose
second page raises, and whose third page extracts `"xyz"`, the extractor
returns the partial accumulation `"abc"` — neither the empty string the
claim requires when a page fails, nor the concatenation over all pages. -/
theorem extract_partial_counterexample :
    extract_text_from_pdf pdfBadMiddlePage = "abc" ∧ ("abc" : String) ≠ "" ∧
      ("abc" : String) ≠ "abcxyz" := by
  refine ⟨rfl, by decide, by decide⟩

/-- C8 (amended): the extractor is total (exceptions are swallowed, never
propagated); a file that fails to open or parse as a whole yields `""`, and
otherwise the result is exactly the concatenated extracted text of the pages
preceding the first raising page — all pages when none raises — with a page
extracting no text contributing `""`. -/
theorem extract_text_characterization :
    (∀ e, extract_text_from_pdf (PdfFile.invalid e) = "") ∧
      ∀ ps, extract_text_from_pdf (PdfFile.pages ps) = extractedPrefix ps := by
  constructor
  · intro e; rfl
  · intro ps
    have h := extractPages_eq ps ""
    simpa [extract_text_from_pdf] using h

/-- A multipart file upload (`request.files["resume"]`): its `filename` and
its stored content, already viewed as a `PdfFile` (the handler saves the
bytes and immediately re-reads them, so the content determines what
`extract_text_from_pdf` sees — deterministic PDF extraction). -/
structure UploadedFile where
  filename : String
  content : PdfFile

/-- A `POST /analyze` request: `resume = Option.none` models the `"resume"`
key being absent from `request.files`; `job_description = Option.none` models
`request.form.get("job_description")` returning `None`. -/
structure AnalyzeRequest where
  resume : Option UploadedFile
  job_description : Option String

/-- JSON bodies the handler can produce: `jsonify({"error": msg})` or the
three-field success object. -/
inductive RespBody where
  | errorMsg (msg : String)
  | analyzeResult (parsed_resume parsed_job_description ats_result : String)
deriving DecidableEq

/-- An HTTP response: status code and JSON body. -/
structure HttpResponse where
  status : Nat
  body : RespBody
deriving DecidableEq

/-- Observable side effects of one handler run: paths at which a file save
was attempted, paths passed to `extract_text_from_pdf`, wrapper invocations
as (prompt, system-instruction) pairs in order, and all retry sleeps in
order. -/
structure Effects where
  saved : List String
  extracted : List String
  calls : List (String × Option String)
  sleeps : List Nat
deriving DecidableEq

/-- Effects of a run that did nothing observable. -/
def Effects.none : Effects := ⟨[], [], [], []⟩

/-- Source: `UPLOAD_FOLDER = "uploads"`. -/
def UPLOAD_FOLDER : String := "uploads"

/-- Source: `recruiter_sys` literal in `analyze`. -/
def recruiter_sys : String :=
  "You are an expert technical recruiter. Analyze the text provided and format the output in clean Markdown bullet points."

/-- Source: `ats_sys` literal in `analyze`. -/
def ats_sys : String :=
  "You are an advanced Applicant Tracking System (ATS). Compare the resume against the job description and provide a match score."

/-- Source: the `resume_prompt` f-string in `analyze`. -/
def resume_prompt (resume_text : String) : String :=
  "Analyze this resume and list technical skills, experience summary, and education:\n\n" ++ resume_text

/-- Source: the `jd_prompt` f-string in `analyze`. -/
def jd_prompt (jd_text : String) : String :=
  "Analyze this Job Description and list required skills, responsibilities, and preferred qualifications:\n\n" ++ jd_text

/-- Segment of the `ats_prompt` f-string before the `parsed_resume`
interpolation. -/
def atsA : String :=
  "\n        Compare the parsed resume against the job description.\n        \n        Resume Analysis:\n        "

/-- Segment of the `ats_prompt` f-string between the `parsed_resume` and
`parsed_jd` interpolations. -/
def atsB : String :=
  "\n        \n        Job Description Analysis:\n        "

/-- Segment of the `ats_prompt` f-string after the `parsed_jd`
interpolation. -/
def atsC : String :=
  "\n        \n        Output Requirements:\n        1. Start exactly with \"Match percentage: XX%\"\n        2. List Matching Skills.\n        3. List Missing Keywords/Skills.\n        4. Provide 3 tips for improvement.\n        "

/-- Source: the `ats_prompt` triple-quoted f-string in `analyze`. -/
def ats_prompt (parsed_resume parsed_jd : String) : String :=
  atsA ++ parsed_resume ++ atsB ++ parsed_jd ++ atsC

/-- Environment of one handler run: the deterministic external-service stub
(per prompt, system instruction and attempt index) and the outcome of
`resume_file.save(pdf_path)` — the one statement inside the handler's `try`
block that can raise locally. -/
structure Env where
  svc : String → Option String → Nat → Except String String
  saveResult : Except String Unit

/-- Python truthiness test `not jd_text` for
`jd_text = request.form.get("job_description")`: true when the field is
absent (`None`) or the empty string. -/
def jdFalsy : Option String → Bool
  | Option.none => true
  | Option.some s => s = ""

/-- Source: the `analyze` route handler.  Returns the HTTP response together
with the observable side effects of the run. -/
def analyze (env : Env) (req : AnalyzeRequest) : HttpResponse × Effects :=
  match req.resume with
  | Option.none => (⟨400, RespBody.errorMsg "Resume PDF is required"⟩, Effects.none)
  | Option.some resume_file =>
    let jd_text := req.job_description
    if resume_file.filename = "" then
      (⟨400, RespBody.errorMsg "No selected file"⟩, Effects.none)
    else if jdFalsy jd_text then
      (⟨400, RespBody.errorMsg "Job description is required"⟩, Effects.none)
    else
      let pdf_path := UPLOAD_FOLDER ++ "/" ++ resume_file.filename
      match env.saveResult with
      | Except.error e =>
        (⟨500, RespBody.errorMsg ("An internal error occurred: " ++ e)⟩,
          ⟨[pdf_path], [], [], []⟩)
      | Except.ok _ =>
        let resume_text := extract_text_from_pdf resume_file.content
        let rp := resume_prompt resume_text
        let jp := jd_prompt (jd_text.getD "")
        let t1 := query_gemini_with_retry env.svc rp (Option.some recruiter_sys)
        let t2 := query_gemini_with_retry env.svc jp (Option.some recruiter_sys)
        let ap := ats_prompt t1.result t2.result
        let t3 := query_gemini_with_retry env.svc ap (Option.some ats_sys)
        (⟨200, RespBody.analyzeResult t1.result t2.result t3.result⟩,
          ⟨[pdf_path], [pdf_path],
            [(rp, Option.some recruiter_sys), (jp, Option.some recruiter_sys),
              (ap, Option.some ats_sys)],
            t1.sleeps ++ t2.sleeps ++ t3.sleeps⟩)

/-- Retry trace of the handler's first wrapper invocation (resume analysis). -/
def tr1 (env : Env) (f : UploadedFile) : RetryTrace :=
  query_gemini_with_retry env.svc (resume_prompt (extract_text_from_pdf f.content))
    (Option.some recruiter_sys)

/-- Retry trace of the handler's second wrapper invocation (job-description
analysis). -/
def tr2 (env : Env) (jd : Option String) : RetryTrace :=
  query_gemini_with_retry env.svc (jd_prompt (jd.getD "")) (Option.some recruiter_sys)

/-- Retry trace of the handler's third wrapper invocation (match synthesis). -/
def tr3 (env : Env) (f : UploadedFile) (jd : Option String) : RetryTrace :=
  query_gemini_with_retry env.svc (ats_prompt (tr1 env f).result (tr2 env jd).result)
    (Option.some ats_sys)

theorem analyze_ok_eq (env : Env) (req : AnalyzeRequest) (f : UploadedFile)
    (hres : req.resume = Option.some f) (hfn : ¬ f.filename = "")
    (hjd : jdFalsy req.job_description = false)
    (hsave : env.saveResult = Except.ok ()) :
    analyze env req =
      (⟨200, RespBody.analyzeResult (tr1 env f).result (tr2 env req.job_description).result
          (tr3 env f req.job_description).result⟩,
        ⟨[UPLOAD_FOLDER ++ "/" ++ f.filename], [UPLOAD_FOLDER ++ "/" ++ f.filename],
          [(resume_prompt (extract_text_from_pdf f.content), Option.some recruiter_sys),
            (jd_prompt (req.job_description.getD ""), Option.some recruiter_sys),
            (ats_prompt (tr1 env f).result (tr2 env req.job_description).result,
              Option.some ats_sys)],
          (tr1 env f).sleeps ++ (tr2 env req.job_description).sleeps ++
            (tr3 env f req.job_description).sleeps⟩) := by
  obtain ⟨resume, jd⟩ := req
  simp only at hres hjd ⊢
  subst hres
  simp [analyze, hfn, hjd, hsave, tr1, tr2, tr3]

/-- An external service that always succeeds with `"ok"`. -/
def okSvc : String → Option String → Nat → Except String String :=
  fun _ _ _ => Except.ok "ok"

/-- Environment with an always-succeeding service and a successful file
save. -/
def env0 : Env := ⟨okSvc, Except.ok ()⟩

/-- Environment whose service raises `"boom"` on every attempt, with a
successful file save. -/
def envFail : Env := ⟨constFail, Except.ok ()⟩

/-- A one-page sample resume PDF. -/
def samplePdf : PdfFile :=
  PdfFile.pages [Except.ok (Option.some "Python, SQL, 3 years experience")]

/-- A sample upload with a non-empty filename. -/
def sampleFile : UploadedFile := ⟨"resume.pdf", samplePdf⟩

/-- A request missing the `resume` file field. -/
def reqNoResume : AnalyzeRequest := ⟨Option.none, Option.some "jd"⟩

/-- A request whose uploaded file has an empty filename. -/
def reqEmptyFilename : AnalyzeRequest := ⟨Option.some ⟨"", samplePdf⟩, Option.some "jd"⟩

/-- A request with a valid file but no `job_description` field. -/
def reqNoJd : AnalyzeRequest := ⟨Option.some sampleFile, Option.none⟩

/-- A request passing all validation checks. -/
def reqOk : AnalyzeRequest :=
  ⟨Option.some sampleFile, Option.some "Looking for Python developer with 2+ years"⟩

/-- A second, syntactically distinct request with the same field values as
`reqOk`. -/
def reqOkCopy : AnalyzeRequest :=
  ⟨Option.some ⟨"resume.pdf", samplePdf⟩,
    Option.some "Looking for Python developer with 2+ years"⟩

/-- C6: the handler returns 400 `"Resume PDF is required"` when the resume
file field is absent; 400 `"No selected file"` when it is present with an
empty filename; and 400 `"Job description is required"` when (the filename
being non-empty) the `job_description` field is absent or empty — the checks
applied in that order. -/
theorem analyze_validation_errors (env : Env) (req : AnalyzeRequest) :
    (req.resume = Option.none →
      analyze env req = (⟨400, RespBody.errorMsg "Resume PDF is required"⟩, Effects.none)) ∧
    (∀ f, req.resume = Option.some f → f.filename = "" →
      analyze env req = (⟨400, RespBody.errorMsg "No selected file"⟩, Effects.none)) ∧
    (∀ f, req.resume = Option.some f → ¬ f.filename = "" →
      jdFalsy req.job_description = true →
      analyze env req = (⟨400, RespBody.errorMsg "Job description is required"⟩, Effects.none)) := by
  obtain ⟨resume, jd⟩ := req
  refine ⟨fun h => ?_, fun f hf hfn => ?_, fun f hf hfn hjd => ?_⟩
  · simp only at h
    subst h
    rfl
  · simp only at hf
    subst hf
    simp [analyze, hfn]
  · simp only at hf hjd
    subst hf
    simp [analyze, hfn, hjd]

/-- C6 (witness): the three validation branches at concrete requests. -/
theorem analyze_validation_errors_witness :
    analyze env0 reqNoResume = (⟨400, RespBody.errorMsg "Resume PDF is required"⟩, Effects.none) ∧
      analyze env0 reqEmptyFilename = (⟨400, RespBody.errorMsg "No selected file"⟩, Effects.none) ∧
      analyze env0 reqNoJd =
        (⟨400, RespBody.errorMsg "Job description is required"⟩, Effects.none) :=
  ⟨(analyze_validation_errors env0 reqNoResume).1 rfl,
    (analyze_validation_errors env0 reqEmptyFilename).2.1 ⟨"", samplePdf⟩ rfl rfl,
    (analyze_validation_errors env0 reqNoJd).2.2 sampleFile rfl (by decide) rfl⟩

/-- C5: on a request that passes validation with no local exception, the
handler issues exactly three wrapper invocations in strict order — resume
analysis, job-description analysis, match synthesis — and the third call's
prompt contains the results of the first two calls and the literal
`"Match percentage: XX%"` as substrings. -/
theorem analyze_three_calls_in_order (env : Env) (req : AnalyzeRequest) (f : UploadedFile)
    (hres : req.resume = Option.some f) (hfn : ¬ f.filename = "")
    (hjd : jdFalsy req.job_description = false)
    (hsave : env.saveResult = Except.ok ()) :
    (analyze env req).2.calls =
      [(resume_prompt (extract_text_from_pdf f.content), Option.some recruiter_sys),
        (jd_prompt (req.job_description.getD ""), Option.some recruiter_sys),
        (ats_prompt (tr1 env f).result (tr2 env req.job_description).result,
          Option.some ats_sys)] ∧
    (∃ a b, ats_prompt (tr1 env f).result (tr2 env req.job_description).result =
      a ++ (tr1 env f).result ++ b) ∧
    (∃ a b, ats_prompt (tr1 env f).result (tr2 env req.job_description).result =
      a ++ (tr2 env req.job_description).result ++ b) ∧
    (∃ a b, ats_prompt (tr1 env f).result (tr2 env req.job_description).result =
      a ++ "Match percentage: XX%" ++ b) := by
  refine ⟨by rw [analyze_ok_eq env req f hres hfn hjd hsave], ?_, ?_, ?_⟩
  · refine ⟨atsA, atsB ++ (tr2 env req.job_description).result ++ atsC, ?_⟩
    simp [ats_prompt, String.append_assoc]
  · refine ⟨atsA ++ (tr1 env f).result ++ atsB, atsC, ?_⟩
    simp [ats_prompt, String.append_assoc]
  · refine ⟨atsA ++ (tr1 env f).result ++ atsB ++ (tr2 env req.job_description).result ++
      "\n        \n        Output Requirements:\n        1. Start exactly with \"",
      "\"\n        2. List Matching Skills.\n        3. List Missing Keywords/Skills.\n        4. Provide 3 tips for improvement.\n        ", ?_⟩
    have hsplit : atsC =
        "\n        \n        Output Requirements:\n        1. Start exactly with \"" ++
          "Match percentage: XX%" ++
          "\"\n        2. List Matching Skills.\n        3. List Missing Keywords/Skills.\n        4. Provide 3 tips for improvement.\n        " := rfl
    rw [show ats_prompt (tr1 env f).result (tr2 env req.job_description).result =
      atsA ++ (tr1 env f).result ++ atsB ++ (tr2 env req.job_description).result ++ atsC from rfl,
      hsplit]
    simp [String.append_assoc]

/-- C5 (witness): the theorem at a concrete request against the
always-succeeding service. -/
theorem analyze_three_calls_in_order_witness :
    (analyze env0 reqOk).2.calls =
      [(resume_prompt (extract_text_from_pdf sampleFile.content), Option.some recruiter_sys),
        (jd_prompt (reqOk.job_description.getD ""), Option.some recruiter_sys),
        (ats_prompt (tr1 env0 sampleFile).result (tr2 env0 reqOk.job_description).result,
          Option.some ats_sys)] ∧
    (∃ a b, ats_prompt (tr1 env0 sampleFile).result (tr2 env0 reqOk.job_description).result =
      a ++ (tr1 env0 sampleFile).result ++ b) ∧
    (∃ a b, ats_prompt (tr1 env0 sampleFile).result (tr2 env0 reqOk.job_description).result =
      a ++ (tr2 env0 reqOk.job_description).result ++ b) ∧
    (∃ a b, ats_prompt (tr1 env0 sampleFile).result (tr2 env0 reqOk.job_description).result =
      a ++ "Match percentage: XX%" ++ b) :=
  analyze_three_calls_in_order env0 reqOk sampleFile rfl (by decide) rfl rfl

/-- C7: on a request that passes validation with no local exception, the
handler responds 200 with exactly the three string fields `parsed_resume`,
`parsed_job_description` and `ats_result` — the results of the three wrapper
invocations, whatever the external service did (terminal-error strings
included). -/
theorem analyze_success_shape (env : Env) (req : AnalyzeRequest) (f : UploadedFile)
    (hres : req.resume = Option.some f) (hfn : ¬ f.filename = "")
    (hjd : jdFalsy req.job_description = false)
    (hsave : env.saveResult = Except.ok ()) :
    (analyze env req).1 =
      ⟨200, RespBody.analyzeResult (tr1 env f).result (tr2 env req.job_description).result
        (tr3 env f req.job_description).result⟩ := by
  rw [analyze_ok_eq env req f hres hfn hjd hsave]

/-- C7 (witness): against an always-failing service the handler still
responds 200, the three fields holding the wrapper's terminal error
string. -/
theorem analyze_success_shape_witness :
    (analyze envFail reqOk).1 =
      ⟨200, RespBody.analyzeResult "AI Error after 5 retries: boom"
        "AI Error after 5 retries: boom" "AI Error after 5 retries: boom"⟩ := by
  have h := analyze_success_shape envFail reqOk sampleFile rfl (by decide) rfl rfl
  rw [h]
  rfl

/-- C9: two requests with identical resume uploads (contents and filename)
and identical job-description text, processed in the same deterministic
environment, receive responses with identical status and identical JSON
body. -/
theorem analyze_deterministic (env : Env) (req1 req2 : AnalyzeRequest)
    (h1 : req1.resume = req2.resume) (h2 : req1.job_description = req2.job_description) :
    (analyze env req1).1 = (analyze env req2).1 := by
  obtain ⟨r1, j1⟩ := req1
  obtain ⟨r2, j2⟩ := req2
  simp only at h1 h2
  subst h1
  subst h2
  rfl

/-- C9 (witness): the theorem at two syntactically distinct requests with
equal field values. -/
theorem analyze_deterministic_witness :
    (analyze env0 reqOk).1 = (analyze env0 reqOkCopy).1 :=
  analyze_deterministic env0 reqOk reqOkCopy rfl rfl

/-- C10: a request rejected with HTTP 400 by input validation produces no
observable side effects — no file save is attempted, no PDF extraction runs,
no wrapper invocation is made, and no retry sleep occurs. -/
theorem analyze_400_no_side_effects (env : Env) (req : AnalyzeRequest)
    (h : (analyze env req).1.status = 400) :
    (analyze env req).2 = Effects.none := by
  obtain ⟨resume, jd⟩ := req
  cases resume with
  | none => rfl
  | some f =>
    by_cases hfn : f.filename = ""
    · simp [analyze, hfn]
    · by_cases hjd : jdFalsy jd = true
      · simp [analyze, hfn, hjd]
      · cases hs : env.saveResult with
        | error e =>
          exfalso
          simp [analyze, hfn, hjd, hs] at h
        | ok u =>
          exfalso
          simp [analyze, hfn, hjd, hs] at h

/-- C10 (witness): the theorem at a concrete rejected request. -/
theorem analyze_400_no_side_effects_witness :
    (analyze env0 reqNoResume).1.status = 400 ∧
      (analyze env0 reqNoResume).2 = Effects.none :=
  ⟨rfl, analyze_400_no_side_effects env0 reqNoResume rfl⟩

end ATSResume
